import Mathlib

/-!
Verification development for the knowledge-base manager in `src/app.py`.

The application is a Streamlit UI gluing three stores together: a relational
catalog (Knowledge / Document rows via SQLAlchemy), a blob store (files under
`storage/<sanitized knowledge name>/<filename>`), and a vector index (a ChromaDB
collection keyed by `"doc_" + document_id`).  We embed the four event handlers
that carry the document lifecycle — the upload button, the file-chosen block,
the "Add to VectorDB" button, and the "Remove Selected Document" button — as
pure state-transition functions.  External effects that can fail (file write,
database commit, ChromaDB add/delete) are parametrised by explicit fault
injections so that every error path of the Python `try/except` blocks is a
reachable branch of the Lean function.
-/

namespace RagModel

/-- The kind of a Streamlit report call: `st.success`, `st.info`, `st.warning`
or `st.error`. -/
inductive MsgKind
  | success
  | info
  | warning
  | error
deriving DecidableEq, Repr

/-- One message reported to the user. -/
structure Msg where
  kind : MsgKind
  text : String
deriving DecidableEq, Repr

/-- MIME type string the PDF branch of `extract_text_from_file` matches on. -/
def pdfMime : String := "application/pdf"

/-- MIME type string the DOCX branch of `extract_text_from_file` matches on. -/
def docxMime : String :=
  "application/vnd.openxmlformats-officedocument.wordprocessingml.document"

/-- MIME type string the plain-text branch of `extract_text_from_file`
matches on. -/
def textMime : String := "text/plain"

/-- What the extraction libraries would yield for one file: the outcome of
attempting to read it as a PDF (a list of per-page `page.extract_text()`
results, `none` for an unreadable page), as a DOCX (the paragraph texts), or as
UTF-8 text.  `Except.error` models the library call raising. -/
structure FileBehavior where
  readPdf : Except String (List (Option String))
  readDocx : Except String (List String)
  readText : Except String String

/-- `extract_text_from_file` of `src/app.py` lines 58-82.  Branches on the
declared MIME type; every branch sits in one `try/except` that catches any
exception, reports it with `st.error` and resets the text to `""`.  The
unsupported branch reports with `st.warning` and leaves the text empty.
Returns the extracted text together with the messages reported. -/
def extract_text_from_file (fs : String → FileBehavior)
    (file_path : String) (filetype : String) : String × List Msg :=
  if filetype = pdfMime then
    match (fs file_path).readPdf with
    | Except.ok pages =>
        (pages.foldl (fun acc p => acc ++ p.getD "") "", [])
    | Except.error e =>
        ("", [⟨MsgKind.error,
              "Error extracting text from " ++ file_path ++ ": " ++ e⟩])
  else if filetype = docxMime then
    match (fs file_path).readDocx with
    | Except.ok paras =>
        (paras.foldl (fun acc p => acc ++ p ++ "\n") "", [])
    | Except.error e =>
        ("", [⟨MsgKind.error,
              "Error extracting text from " ++ file_path ++ ": " ++ e⟩])
  else if filetype = textMime then
    match (fs file_path).readText with
    | Except.ok s => (s, [])
    | Except.error e =>
        ("", [⟨MsgKind.error,
              "Error extracting text from " ++ file_path ++ ": " ++ e⟩])
  else
    ("", [⟨MsgKind.warning,
          "Unsupported file type for text extraction: " ++ filetype ++
          ". Skipping text indexing in ChromaDB."⟩])

/-- A row of the `knowledge` table (`src/app.py` lines 26-31). -/
structure KnowledgeRow where
  id : Nat
  name : String
  description : String
deriving DecidableEq, Repr

/-- A row of the `document` table (`src/app.py` lines 33-42).  Timestamps are
modelled as abstract clock readings (`Nat`). -/
structure DocumentRow where
  id : Nat
  knowledge_id : Nat
  name : String
  filetype : String
  size : Nat
  path : String
  uploaded_at : Nat
deriving DecidableEq, Repr

/-- The `st.session_state.pending_vectorization_doc` snapshot built at
`src/app.py` lines 148-158: the new document's identity plus the owning
knowledge's name and description, with `uploaded_at` already rendered as a
string (`str(datetime.datetime.now())`). -/
structure PendingDoc where
  document_id : Nat
  knowledge_id : Nat
  knowledge_name : String
  knowledge_description : String
  file_name : String
  file_type : String
  size : Nat
  path : String
  uploaded_at : String
deriving DecidableEq, Repr

/-- The metadata record passed to `documents_collection.add`
(`src/app.py` lines 186-196). -/
structure VectorMeta where
  knowledge_id : Nat
  knowledge_name : String
  knowledge_description : String
  document_id : Nat
  file_name : String
  file_type : String
  size : Nat
  path : String
  uploaded_at : String
deriving DecidableEq, Repr

/-- One entry of the ChromaDB collection `knowledge_documents`: the id it was
stored under, the document text, and the metadata record. -/
structure VectorEntry where
  key : String
  text : String
  meta : VectorMeta
deriving DecidableEq, Repr

/-- The observable state of the system: the two catalog tables, the set of
blob paths on disk, the vector index, and the session flags
`pending_vectorization_doc`, `upload_for_id`, `upload_for_name`,
`upload_for_desc`. -/
structure AppState where
  knowledge : List KnowledgeRow
  documents : List DocumentRow
  blobs : List String
  vectors : List VectorEntry
  pending : Option PendingDoc
  upload_for_id : Option Nat
  upload_for_name : String
  upload_for_desc : String
deriving DecidableEq, Repr

/-- The storage-path sanitization of `src/app.py` line 119:
`name.replace(" ", "_").lower()`.  Since the pattern is the single character
`" "`, this is the per-character map that turns spaces into underscores and
lowercases everything else. -/
def sanitizeName (name : String) : String :=
  String.mk (name.data.map (fun c => if c = ' ' then '_' else c.toLower))

/-- The "Upload Document to `k.name`" button handler, `src/app.py` lines
299-304: record the target knowledge's id, name and description in the session
and clear any previous pending-vectorization marker.  No message is reported. -/
def uploadButtonClick (s : AppState) (k : KnowledgeRow) : AppState × List Msg :=
  ({ s with upload_for_id := some k.id,
            upload_for_name := k.name,
            upload_for_desc := k.description,
            pending := none }, [])

/-- Writing a file: the path is on disk afterwards (an existing file at the
same path is overwritten in place). -/
def writeBlob (path : String) (blobs : List String) : List String :=
  if path ∈ blobs then blobs else path :: blobs

/-- The file-chosen block of the uploader, `src/app.py` lines 117-169.
Arguments beyond the file's name, declared type and size: `saveErr` injects a
failure of the file write (lines 124-131, which on failure reports an error,
resets `upload_for_id` and calls `st.stop()`); `dbErr` injects a failure of the
catalog insert/commit (lines 135-165, which on failure rolls back and reports
an error); `newId` is the id the database generates for the new row; `tRow` and
`tSnap` are the two separate `datetime.datetime.now()` readings taken at line
142 (the row's `uploaded_at`) and line 157 (the snapshot's `uploaded_at`,
stored as a string). -/
def uploadFileChosen (s : AppState) (fname ftype : String) (fsize : Nat)
    (saveErr : Option String) (dbErr : Option String)
    (newId : Nat) (tRow : Nat) (tSnap : Nat) : AppState × List Msg :=
  match s.upload_for_id with
  | none => (s, [])
  | some kid =>
    let storage_dir := "storage/" ++ sanitizeName s.upload_for_name
    let file_path := storage_dir ++ "/" ++ fname
    match saveErr with
    | some e =>
        ({ s with upload_for_id := none },
         [⟨MsgKind.error, "Error saving file to disk: " ++ e⟩])
    | none =>
      let s1 := { s with blobs := writeBlob file_path s.blobs }
      let saveMsg : Msg :=
        ⟨MsgKind.success, "File " ++ fname ++ " saved to local storage."⟩
      match dbErr with
      | some e =>
          ({ s1 with upload_for_id := none },
           [saveMsg,
            ⟨MsgKind.error,
             "Error saving document metadata to PostgreSQL: " ++ e⟩])
      | none =>
          let row : DocumentRow :=
            ⟨newId, kid, fname, ftype, fsize, file_path, tRow⟩
          let snap : PendingDoc :=
            ⟨newId, kid, s.upload_for_name, s.upload_for_desc,
             fname, ftype, fsize, file_path, toString tSnap⟩
          ({ s1 with documents := s1.documents ++ [row],
                     pending := some snap,
                     upload_for_id := none },
           [saveMsg,
            ⟨MsgKind.success,
             "Document metadata saved to PostgreSQL. Now, click Add to VectorDB below."⟩])

/-- The "Add to VectorDB" button handler, `src/app.py` lines 179-205: extract
text from the pending document's file; if non-empty, call
`documents_collection.add` with the snapshot metadata under id
`"doc_" + document_id` and clear the pending marker on success (`chromaAddErr`
injects the add raising, which only reports an error); if the extracted text is
empty, report a warning and leave the marker in place. -/
def addToVectorDbClick (fs : String → FileBehavior) (s : AppState)
    (chromaAddErr : Option String) : AppState × List Msg :=
  match s.pending with
  | none => (s, [])
  | some doc_info =>
    let er := extract_text_from_file fs doc_info.path doc_info.file_type
    if er.1 = "" then
      (s, er.2 ++ [⟨MsgKind.warning,
        "Could not extract text from " ++ doc_info.file_name ++
        ". Cannot add to VectorDB."⟩])
    else
      match chromaAddErr with
      | none =>
          let entry : VectorEntry :=
            ⟨"doc_" ++ toString doc_info.document_id, er.1,
             ⟨doc_info.knowledge_id, doc_info.knowledge_name,
              doc_info.knowledge_description, doc_info.document_id,
              doc_info.file_name, doc_info.file_type, doc_info.size,
              doc_info.path, doc_info.uploaded_at⟩⟩
          ({ s with vectors := s.vectors ++ [entry], pending := none },
           er.2 ++ [⟨MsgKind.success,
             doc_info.file_name ++ " successfully added to VectorDB (ChromaDB)!"⟩])
      | some e =>
          (s, er.2 ++ [⟨MsgKind.error,
            "Error adding " ++ doc_info.file_name ++ " to VectorDB: " ++ e⟩])

/-- Outcome of the catalog delete+commit at `src/app.py` lines 282-292: it may
succeed, raise an `IntegrityError`, or raise any other exception; both failure
kinds roll back. -/
inductive DbDeleteOutcome
  | ok
  | integrityError (e : String)
  | otherError (e : String)
deriving DecidableEq, Repr

/-- The "Remove Selected Document" button handler, `src/app.py` lines 258-294.
If no row with the given id exists, only an error is reported.  Otherwise the
three deletions run in order: (1) ChromaDB delete of `"doc_" + id`
(`chromaErr` injects it raising, which only warns); (2) blob delete of the
row's path (skipped with an informational message when the path is absent;
`blobErr` injects `os.remove` raising, which reports an error); (3) catalog
row delete and commit (`dbOut`), whose failure rolls the catalog transaction
back and reports an error — the earlier two deletions are not undone. -/
def removeSelectedDocument (s : AppState) (docId : Nat)
    (chromaErr : Option String) (blobErr : Option String)
    (dbOut : DbDeleteOutcome) : AppState × List Msg :=
  match s.documents.find? (fun d => d.id == docId) with
  | none => (s, [⟨MsgKind.error, "Document not found in database."⟩])
  | some doc =>
    let chroma_doc_id := "doc_" ++ toString doc.id
    let step1 : List VectorEntry × Msg :=
      match chromaErr with
      | none =>
          (s.vectors.filter (fun v => v.key != chroma_doc_id),
           ⟨MsgKind.success,
            "Document " ++ doc.name ++ " removed from VectorDB (ChromaDB)."⟩)
      | some e =>
          (s.vectors,
           ⟨MsgKind.warning,
            "Could not remove " ++ doc.name ++
            " from VectorDB (ChromaDB). It might not have been indexed or an error occurred: " ++ e⟩)
    let step2 : List String × Msg :=
      if doc.path ∈ s.blobs then
        match blobErr with
        | none =>
            (s.blobs.filter (fun p => p != doc.path),
             ⟨MsgKind.success,
              "File " ++ doc.name ++ " deleted from local storage."⟩)
        | some e =>
            (s.blobs,
             ⟨MsgKind.error,
              "Error deleting file " ++ doc.name ++ " from storage: " ++ e⟩)
      else
        (s.blobs,
         ⟨MsgKind.info,
          "File " ++ doc.name ++ " not found in local storage path: " ++ doc.path⟩)
    match dbOut with
    | DbDeleteOutcome.ok =>
        ({ s with vectors := step1.1, blobs := step2.1,
                  documents := s.documents.filter (fun d => d.id != docId) },
         [step1.2, step2.2,
          ⟨MsgKind.success,
           "Document " ++ doc.name ++ " removed from PostgreSQL."⟩])
    | DbDeleteOutcome.integrityError e =>
        ({ s with vectors := step1.1, blobs := step2.1 },
         [step1.2, step2.2,
          ⟨MsgKind.error,
           "Integrity Error: Could not delete document from PostgreSQL. " ++ e⟩])
    | DbDeleteOutcome.otherError e =>
        ({ s with vectors := step1.1, blobs := step2.1 },
         [step1.2, step2.2,
          ⟨MsgKind.error,
           "Error deleting document from PostgreSQL: " ++ e⟩])

/-- Modelled from the spec: `src/app.py` exposes no user action deleting a
Knowledge; the only code about it is the ORM relationship declaration
`cascade="all, delete"` on `Knowledge.documents` (line 31).  Per the spec,
deleting a Knowledge cascades to delete all its Documents' catalog rows and
touches neither their blobs nor their vector entries. -/
def deleteKnowledge (s : AppState) (kid : Nat) : AppState :=
  { s with knowledge := s.knowledge.filter (fun k => k.id != kid),
           documents := s.documents.filter (fun d => d.knowledge_id != kid) }

/-- Concrete fixture: the knowledge base of the spec's scenario. -/
def know1 : KnowledgeRow := ⟨1, "Manuals", "product manuals"⟩

/-- Concrete fixture: a committed document row for `guide.txt`. -/
def doc1 : DocumentRow :=
  ⟨1, 1, "guide.txt", "text/plain", 11, "storage/manuals/guide.txt", 0⟩

/-- Concrete fixture: the pending-vectorization snapshot for `doc1`, taken at
clock reading 1. -/
def pending1 : PendingDoc :=
  ⟨1, 1, "Manuals", "product manuals", "guide.txt", "text/plain", 11,
   "storage/manuals/guide.txt", "1"⟩

/-- Concrete fixture: one knowledge base, no documents yet. -/
def state0 : AppState := ⟨[know1], [], [], [], none, none, "", ""⟩

/-- Concrete fixture: one knowledge base with `doc1` committed and its blob on
disk. -/
def state1 : AppState :=
  ⟨[know1], [doc1], ["storage/manuals/guide.txt"], [], none, none, "", ""⟩

/-- Concrete fixture: `state1` with a pending-vectorization marker set. -/
def statePending : AppState := { state1 with pending := some pending1 }

/-- Concrete file behaviour: every path reads as the UTF-8 text
`"hello world"`; PDF/DOCX attempts raise. -/
def fsGuide : String → FileBehavior := fun _ =>
  ⟨Except.error "EOF marker not found", Except.error "Package not found",
   Except.ok "hello world"⟩

/-- Concrete file behaviour: every library call raises. -/
def fsRaise : String → FileBehavior := fun _ =>
  ⟨Except.error "boom", Except.error "boom", Except.error "boom"⟩

/-- Concrete file behaviour: every path reads as a DOCX with paragraphs
`"a"` and `"b"`; other attempts raise. -/
def fsDocxAB : String → FileBehavior := fun _ =>
  ⟨Except.error "x", Except.ok ["a", "b"], Except.error "x"⟩

/-- Concrete run: click "Upload Document to Manuals" from `state0`. -/
def runUploadA : AppState := (uploadButtonClick state0 know1).1

/-- Concrete run: then choose `guide.txt`; id 1 is generated, the row's clock
reading is 0 and the snapshot's is 1. -/
def runUploadB : AppState :=
  (uploadFileChosen runUploadA "guide.txt" "text/plain" 11 none none 1 0 1).1

/-- Concrete run: then click "Add to VectorDB" with extraction succeeding. -/
def runIndexed : AppState := (addToVectorDbClick fsGuide runUploadB none).1

theorem getLast?_append_singleton {α : Type} (l : List α) (m : α) :
    (l ++ [m]).getLast? = some m := by
  induction l with
  | nil => rfl
  | cons a t ih =>
      rw [List.cons_append, List.getLast?_cons, ih]
      cases t <;> rfl

/-- C3 counterexample: with a pending marker set, clicking an upload button
clears the marker while reporting no message at all — in particular no
"discarding pending index for X" notice. -/
theorem upload_button_discard_silent_cex :
    statePending.pending = some pending1 ∧
    (uploadButtonClick statePending know1).2 = [] ∧
    (uploadButtonClick statePending know1).1.pending = none := by
  decide

/-- C3 (amended): starting a new upload while a Pending-Vectorization marker is
set discards the marker silently — no message of any kind is reported — and the
previous upload's catalog row, blob and vector entries are left in place. -/
theorem upload_button_discards_marker_silently
    (s : AppState) (k : KnowledgeRow) (p : PendingDoc)
    (h : s.pending = some p) :
    (uploadButtonClick s k).1.pending = none ∧
    (uploadButtonClick s k).2 = [] ∧
    (uploadButtonClick s k).1.documents = s.documents ∧
    (uploadButtonClick s k).1.blobs = s.blobs ∧
    (uploadButtonClick s k).1.vectors = s.vectors :=
  ⟨rfl, rfl, rfl, rfl, rfl⟩

/-- Witness for C3's amended theorem at the concrete pending state. -/
theorem upload_button_discards_marker_silently_witness :
    statePending.pending = some pending1 ∧
    (uploadButtonClick statePending know1).1.pending = none :=
  ⟨by decide,
   (upload_button_discards_marker_silently statePending know1 pending1 (by decide)).1⟩

/-- C5: if the blob save fails during the file-chosen block, the flow aborts —
the only message is the surfaced error, no catalog row is created, no blob is
recorded, and the pending-vectorization marker is unchanged. -/
theorem upload_save_failure_aborts
    (s : AppState) (kid : Nat) (fname ftype : String) (fsize : Nat)
    (e : String) (dbErr : Option String) (newId tRow tSnap : Nat)
    (hk : s.upload_for_id = some kid) :
    (uploadFileChosen s fname ftype fsize (some e) dbErr newId tRow tSnap).1.documents
      = s.documents ∧
    (uploadFileChosen s fname ftype fsize (some e) dbErr newId tRow tSnap).1.pending
      = s.pending ∧
    (uploadFileChosen s fname ftype fsize (some e) dbErr newId tRow tSnap).1.blobs
      = s.blobs ∧
    (uploadFileChosen s fname ftype fsize (some e) dbErr newId tRow tSnap).1.vectors
      = s.vectors ∧
    (uploadFileChosen s fname ftype fsize (some e) dbErr newId tRow tSnap).2
      = [⟨MsgKind.error, "Error saving file to disk: " ++ e⟩] := by
  unfold uploadFileChosen
  rw [hk]
  exact ⟨rfl, rfl, rfl, rfl, rfl⟩

/-- Witness for C5 at a concrete failing save. -/
theorem upload_save_failure_aborts_witness :
    runUploadA.upload_for_id = some 1 ∧
    (uploadFileChosen runUploadA "guide.txt" "text/plain" 11 (some "disk full")
        none 2 5 6).1.documents = runUploadA.documents :=
  ⟨by decide,
   (upload_save_failure_aborts runUploadA 1 "guide.txt" "text/plain" 11
      "disk full" none 2 5 6 (by decide)).1⟩

/-- C9: when no catalog row has the requested id, the removal handler performs
no side effect at all — no vector-index delete, no blob delete, the state is
returned unchanged — and only the "Document not found" error is reported. -/
theorem removal_missing_doc_no_effect
    (s : AppState) (docId : Nat) (chromaErr blobErr : Option String)
    (dbOut : DbDeleteOutcome)
    (h : s.documents.find? (fun d => d.id == docId) = none) :
    removeSelectedDocument s docId chromaErr blobErr dbOut
      = (s, [⟨MsgKind.error, "Document not found in database."⟩]) := by
  unfold removeSelectedDocument
  rw [h]

/-- Witness for C9: removing id 2 from a state that only has document 1. -/
theorem removal_missing_doc_no_effect_witness :
    state1.documents.find? (fun d => d.id == 2) = none ∧
    removeSelectedDocument state1 2 none none DbDeleteOutcome.ok
      = (state1, [⟨MsgKind.error, "Document not found in database."⟩]) :=
  ⟨by decide,
   removal_missing_doc_no_effect state1 2 none none DbDeleteOutcome.ok (by decide)⟩

/-- C10: if the vector-index add raises during the indexing step, the state —
in particular the pending-vectorization marker — is unchanged, so the document
can be re-submitted, and the final message reported is an error. -/
theorem vector_add_failure_keeps_marker
    (fs : String → FileBehavior) (s : AppState) (d : PendingDoc) (e : String)
    (hp : s.pending = some d)
    (hne : (extract_text_from_file fs d.path d.file_type).1 ≠ "") :
    (addToVectorDbClick fs s (some e)).1 = s ∧
    (addToVectorDbClick fs s (some e)).1.pending = some d ∧
    (addToVectorDbClick fs s (some e)).2.getLast?.map Msg.kind
      = some MsgKind.error := by
  have hcase : addToVectorDbClick fs s (some e)
      = (s, (extract_text_from_file fs d.path d.file_type).2 ++
            [⟨MsgKind.error,
              "Error adding " ++ d.file_name ++ " to VectorDB: " ++ e⟩]) := by
    unfold addToVectorDbClick
    rw [hp]
    simp only [if_neg hne]
  rw [hcase]
  exact ⟨rfl, hp, by rw [getLast?_append_singleton]; rfl⟩

/-- Witness for C10 at a concrete failing vector add. -/
theorem vector_add_failure_keeps_marker_witness :
    runUploadB.pending = some pending1 ∧
    (extract_text_from_file fsGuide pending1.path pending1.file_type).1 ≠ "" ∧
    (addToVectorDbClick fsGuide runUploadB (some "connection refused")).1
      = runUploadB :=
  ⟨by decide, by decide,
   (vector_add_failure_keeps_marker fsGuide runUploadB pending1
      "connection refused" (by decide) (by decide)).1⟩

/-- C2: with a pending marker set, if extraction yields empty text the indexing
step leaves the whole state unchanged (no vector entry, marker still set) and
ends with a warning; any MIME type outside PDF/DOCX/plain-text extracts to
empty text; and the marker is cleared only when the extraction was non-empty
and the vector-index add succeeded. -/
theorem indexing_empty_extraction_keeps_marker
    (fs : String → FileBehavior) (s : AppState) (d : PendingDoc)
    (addErr : Option String)
    (hp : s.pending = some d) :
    ((extract_text_from_file fs d.path d.file_type).1 = "" →
       (addToVectorDbClick fs s addErr).1 = s ∧
       (addToVectorDbClick fs s addErr).1.pending = some d ∧
       (addToVectorDbClick fs s addErr).2.getLast?.map Msg.kind
         = some MsgKind.warning)
  ∧ (d.file_type ≠ pdfMime → d.file_type ≠ docxMime → d.file_type ≠ textMime →
       (extract_text_from_file fs d.path d.file_type).1 = "")
  ∧ ((addToVectorDbClick fs s addErr).1.pending = none →
       (extract_text_from_file fs d.path d.file_type).1 ≠ "" ∧ addErr = none) := by
  refine ⟨?_, ?_, ?_⟩
  · intro he
    have hcase : addToVectorDbClick fs s addErr
        = (s, (extract_text_from_file fs d.path d.file_type).2 ++
              [⟨MsgKind.warning,
                "Could not extract text from " ++ d.file_name ++
                ". Cannot add to VectorDB."⟩]) := by
      unfold addToVectorDbClick
      rw [hp]
      simp only [if_pos he]
    rw [hcase]
    exact ⟨rfl, hp, by rw [getLast?_append_singleton]; rfl⟩
  · intro h1 h2 h3
    unfold extract_text_from_file
    rw [if_neg h1, if_neg h2, if_neg h3]
  · intro hnone
    by_cases he : (extract_text_from_file fs d.path d.file_type).1 = ""
    · exfalso
      have hcase : addToVectorDbClick fs s addErr
          = (s, (extract_text_from_file fs d.path d.file_type).2 ++
                [⟨MsgKind.warning,
                  "Could not extract text from " ++ d.file_name ++
                  ". Cannot add to VectorDB."⟩]) := by
        unfold addToVectorDbClick
        rw [hp]
        simp only [if_pos he]
      rw [hcase] at hnone
      rw [hp] at hnone
      exact Option.noConfusion hnone
    · refine ⟨he, ?_⟩
      cases addErr with
      | none => rfl
      | some e =>
          exfalso
          have hcase : addToVectorDbClick fs s (some e)
              = (s, (extract_text_from_file fs d.path d.file_type).2 ++
                    [⟨MsgKind.error,
                      "Error adding " ++ d.file_name ++ " to VectorDB: " ++ e⟩]) := by
            unfold addToVectorDbClick
            rw [hp]
            simp only [if_neg he]
          rw [hcase] at hnone
          rw [hp] at hnone
          exact Option.noConfusion hnone

theorem addToVectorDb_success_eq
    (fs : String → FileBehavior) (s : AppState) (d : PendingDoc)
    (hp : s.pending = some d)
    (hne : (extract_text_from_file fs d.path d.file_type).1 ≠ "") :
    addToVectorDbClick fs s none
      = ({ s with
            vectors := s.vectors ++
              [⟨"doc_" ++ toString d.document_id,
                (extract_text_from_file fs d.path d.file_type).1,
                ⟨d.knowledge_id, d.knowledge_name, d.knowledge_description,
                 d.document_id, d.file_name, d.file_type, d.size, d.path,
                 d.uploaded_at⟩⟩],
            pending := none },
         (extract_text_from_file fs d.path d.file_type).2 ++
           [⟨MsgKind.success,
             d.file_name ++ " successfully added to VectorDB (ChromaDB)!"⟩]) := by
  unfold addToVectorDbClick
  rw [hp]
  simp only [if_neg hne]

theorem foldl_append_eq_join {α : Type} (l : List α) (f : α → String) :
    l.foldl (fun acc a => acc ++ f a) "" = String.join (l.map f) := by
  simp [String.join, List.foldl_map]

theorem foldl_append_newline_eq_join (l : List String) :
    l.foldl (fun acc pr => acc ++ pr ++ "\n") ""
      = String.join (l.map (fun pr => pr ++ "\n")) := by
  have h : (fun (acc pr : String) => acc ++ pr ++ "\n")
      = fun (acc pr : String) => acc ++ (pr ++ "\n") := by
    funext acc pr
    rw [String.append_assoc]
  rw [h]
  exact foldl_append_eq_join l (fun pr => pr ++ "\n")

/-- C1: for a document present in the catalog, the removal handler attempts the
three deletions in order vector index (key "doc_" ++ id), blob, catalog row:
exactly one message is reported per step, in that order; a vector-index failure
only warns (the first message) and leaves the index untouched while the blob
and catalog steps still run unchanged; a catalog-delete failure rolls the row
deletion back and is the terminal outcome — the last message is an error, the
row is still present, and the vector/blob deletions of steps 1-2 are not
undone. -/
theorem removal_flow_order_and_rollback
    (s : AppState) (docId : Nat) (doc : DocumentRow)
    (chromaErr blobErr : Option String) (dbOut : DbDeleteOutcome)
    (hfind : s.documents.find? (fun d => d.id == docId) = some doc) :
    (removeSelectedDocument s docId chromaErr blobErr dbOut).2.length = 3
  ∧ (chromaErr = none →
       (removeSelectedDocument s docId chromaErr blobErr dbOut).1.vectors
         = s.vectors.filter (fun v => v.key != "doc_" ++ toString doc.id))
  ∧ (chromaErr ≠ none →
       (removeSelectedDocument s docId chromaErr blobErr dbOut).1.vectors
           = s.vectors
       ∧ (removeSelectedDocument s docId chromaErr blobErr dbOut).2.head?.map Msg.kind
           = some MsgKind.warning)
  ∧ (removeSelectedDocument s docId chromaErr blobErr dbOut).1.blobs
      = (removeSelectedDocument s docId none blobErr dbOut).1.blobs
  ∧ (removeSelectedDocument s docId chromaErr blobErr dbOut).1.documents
      = (removeSelectedDocument s docId none none dbOut).1.documents
  ∧ (dbOut = DbDeleteOutcome.ok →
       (removeSelectedDocument s docId chromaErr blobErr dbOut).1.documents
         = s.documents.filter (fun d => d.id != docId))
  ∧ (dbOut ≠ DbDeleteOutcome.ok →
       (removeSelectedDocument s docId chromaErr blobErr dbOut).1.documents
           = s.documents
       ∧ (removeSelectedDocument s docId chromaErr blobErr dbOut).2.getLast?.map Msg.kind
           = some MsgKind.error
       ∧ (removeSelectedDocument s docId chromaErr blobErr dbOut).1.vectors
           = (removeSelectedDocument s docId chromaErr blobErr DbDeleteOutcome.ok).1.vectors
       ∧ (removeSelectedDocument s docId chromaErr blobErr dbOut).1.blobs
           = (removeSelectedDocument s docId chromaErr blobErr DbDeleteOutcome.ok).1.blobs) := by
  unfold removeSelectedDocument
  rw [hfind]
  cases chromaErr <;> cases blobErr <;> cases dbOut <;>
    by_cases hb : doc.path ∈ s.blobs <;>
    simp [hb]

/-- Witness for C1 at the concrete one-document state. -/
theorem removal_flow_order_and_rollback_witness :
    state1.documents.find? (fun d => d.id == 1) = some doc1 ∧
    (removeSelectedDocument state1 1 none none DbDeleteOutcome.ok).2.length = 3 :=
  ⟨by decide,
   (removal_flow_order_and_rollback state1 1 doc1 none none DbDeleteOutcome.ok
      (by decide)).1⟩

/-- C4 counterexample: in a run whose clock advances between the row insert and
the snapshot (`tRow = 0`, `tSnap = 1` — the code takes two separate
`datetime.datetime.now()` readings at lines 142 and 157), the vector entry's
`uploaded_at` is `"1"` while the catalog row's upload timestamp is `0`, whose
string form `"0"` differs — so the stored string does not equal the row's
upload timestamp. -/
theorem vector_metadata_timestamp_cex :
    runIndexed.vectors.map (fun v => v.meta.uploaded_at) = ["1"] ∧
    runUploadB.documents.map (fun d => d.uploaded_at) = [0] ∧
    toString (0 : Nat) ≠ "1" := by
  decide

/-- C4 (amended): a successfully indexed document's vector entry is stored
under key "doc_" ++ document id, and its metadata duplicates the catalog row's
fields (document id, file name, file type, size, path, owning knowledge id)
and the owning knowledge's name and description at index time — except that
`uploaded_at` is the string form of a second clock reading taken when the
pending snapshot is built, which need not equal the row's upload timestamp. -/
theorem vector_entry_snapshot_metadata
    (fs : String → FileBehavior) (s : AppState) (k : KnowledgeRow)
    (fname ftype : String) (fsize newId tRow tSnap : Nat)
    (hne : (extract_text_from_file fs
             ("storage/" ++ sanitizeName k.name ++ "/" ++ fname) ftype).1 ≠ "") :
    ((uploadFileChosen (uploadButtonClick s k).1 fname ftype fsize none none
        newId tRow tSnap).1.documents
      = s.documents ++ [⟨newId, k.id, fname, ftype, fsize,
          "storage/" ++ sanitizeName k.name ++ "/" ++ fname, tRow⟩])
  ∧ ((addToVectorDbClick fs (uploadFileChosen (uploadButtonClick s k).1 fname
        ftype fsize none none newId tRow tSnap).1 none).1.vectors
      = s.vectors ++ [⟨"doc_" ++ toString newId,
          (extract_text_from_file fs
            ("storage/" ++ sanitizeName k.name ++ "/" ++ fname) ftype).1,
          ⟨k.id, k.name, k.description, newId, fname, ftype, fsize,
           "storage/" ++ sanitizeName k.name ++ "/" ++ fname, toString tSnap⟩⟩])
  ∧ ((addToVectorDbClick fs (uploadFileChosen (uploadButtonClick s k).1 fname
        ftype fsize none none newId tRow tSnap).1 none).1.pending = none) := by
  have h2 := addToVectorDb_success_eq fs
      (uploadFileChosen (uploadButtonClick s k).1 fname ftype fsize none none
        newId tRow tSnap).1
      ⟨newId, k.id, k.name, k.description, fname, ftype, fsize,
       "storage/" ++ sanitizeName k.name ++ "/" ++ fname, toString tSnap⟩
      rfl hne
  refine ⟨rfl, ?_, ?_⟩
  · rw [h2]
    try rfl
  · rw [h2]
    try rfl

/-- Witness for C4's amended theorem at the concrete `guide.txt` run. -/
theorem vector_entry_snapshot_metadata_witness :
    (extract_text_from_file fsGuide
       ("storage/" ++ sanitizeName know1.name ++ "/" ++ "guide.txt")
       "text/plain").1 ≠ "" ∧
    (addToVectorDbClick fsGuide (uploadFileChosen (uploadButtonClick state0
        know1).1 "guide.txt" "text/plain" 11 none none 1 0 1).1 none).1.pending
      = none :=
  ⟨by decide,
   (vector_entry_snapshot_metadata fsGuide state0 know1 "guide.txt"
      "text/plain" 11 1 0 1 (by decide)).2.2⟩

/-- C6 counterexample: when reading the file raises, the caught-error path
reports with `st.error`, not a warning — the reported message kind is `error`;
and DOCX extraction appends a newline after every paragraph (including the
last), so for paragraphs "a","b" it yields "a\nb\n", which is not the
newline-join "a\nb". -/
theorem extract_error_kind_cex :
    (extract_text_from_file fsRaise "f.txt" textMime).2.map Msg.kind
      = [MsgKind.error] ∧
    MsgKind.error ≠ MsgKind.warning ∧
    (extract_text_from_file fsDocxAB "f.docx" docxMime).1 = "a\nb\n" ∧
    "a\nb\n" ≠ String.intercalate "\n" ["a", "b"] := by
  decide

/-- C6 (amended): `extract_text_from_file` never raises to its caller — every
outcome is a returned (text, messages) pair; an internal extraction error is
caught and degrades to the empty string with an error-kind message; an
unsupported MIME type returns the empty string with a warning (not an error);
PDF extraction concatenates every page's text treating an unreadable page
(`extract_text()` returning None) as empty text; and DOCX extraction
concatenates the paragraph texts each followed by a newline. -/
theorem extract_text_contract
    (fs : String → FileBehavior) (p ft e : String)
    (pages : List (Option String)) (paras : List String) (txt : String) :
      (ft = pdfMime → (fs p).readPdf = Except.ok pages →
         extract_text_from_file fs p ft
           = (String.join (pages.map (fun pg => pg.getD "")), []))
    ∧ (ft = pdfMime → (fs p).readPdf = Except.error e →
         extract_text_from_file fs p ft
           = ("", [⟨MsgKind.error,
                    "Error extracting text from " ++ p ++ ": " ++ e⟩]))
    ∧ (ft = docxMime → (fs p).readDocx = Except.ok paras →
         extract_text_from_file fs p ft
           = (String.join (paras.map (fun pr => pr ++ "\n")), []))
    ∧ (ft = docxMime → (fs p).readDocx = Except.error e →
         extract_text_from_file fs p ft
           = ("", [⟨MsgKind.error,
                    "Error extracting text from " ++ p ++ ": " ++ e⟩]))
    ∧ (ft = textMime → (fs p).readText = Except.ok txt →
         extract_text_from_file fs p ft = (txt, []))
    ∧ (ft = textMime → (fs p).readText = Except.error e →
         extract_text_from_file fs p ft
           = ("", [⟨MsgKind.error,
                    "Error extracting text from " ++ p ++ ": " ++ e⟩]))
    ∧ (ft ≠ pdfMime → ft ≠ docxMime → ft ≠ textMime →
         (extract_text_from_file fs p ft).1 = ""
         ∧ (extract_text_from_file fs p ft).2.map Msg.kind
             = [MsgKind.warning]) := by
  refine ⟨?_, ?_, ?_, ?_, ?_, ?_, ?_⟩
  · intro hft hr
    subst hft
    unfold extract_text_from_file
    rw [if_pos rfl, hr]
    exact congrArg (fun t => (t, ([] : List Msg)))
      (foldl_append_eq_join pages (fun pg => pg.getD ""))
  · intro hft hr
    subst hft
    unfold extract_text_from_file
    rw [if_pos rfl, hr]
  · intro hft hr
    subst hft
    unfold extract_text_from_file
    rw [if_neg (by decide), if_pos rfl, hr]
    exact congrArg (fun t => (t, ([] : List Msg)))
      (foldl_append_newline_eq_join paras)
  · intro hft hr
    subst hft
    unfold extract_text_from_file
    rw [if_neg (by decide), if_pos rfl, hr]
  · intro hft hr
    subst hft
    unfold extract_text_from_file
    rw [if_neg (by decide), if_neg (by decide), if_pos rfl, hr]
  · intro hft hr
    subst hft
    unfold extract_text_from_file
    rw [if_neg (by decide), if_neg (by decide), if_pos rfl, hr]
  · intro h1 h2 h3
    unfold extract_text_from_file
    rw [if_neg h1, if_neg h2, if_neg h3]
    exact ⟨rfl, rfl⟩

/-- Witness for C6's amended theorem: a concrete plain-text read. -/
theorem extract_text_contract_witness :
    (fsGuide "f").readText = Except.ok "hello world" ∧
    extract_text_from_file fsGuide "f" textMime = ("hello world", []) :=
  ⟨rfl,
   (extract_text_contract fsGuide "f" textMime "e" [] [] "hello world").2.2.2.2.1
     rfl rfl⟩

/-- C7: deleting a Knowledge removes from the catalog exactly its own
documents' rows (the cascade), leaving every other document row, every blob and
every vector entry untouched. -/
theorem knowledge_cascade_delete (s : AppState) (kid : Nat) :
    (∀ d : DocumentRow,
       d ∈ (deleteKnowledge s kid).documents
         ↔ (d ∈ s.documents ∧ d.knowledge_id ≠ kid))
  ∧ s.documents.length
      = (s.documents.filter (fun d => d.knowledge_id == kid)).length
        + (deleteKnowledge s kid).documents.length
  ∧ (deleteKnowledge s kid).blobs = s.blobs
  ∧ (deleteKnowledge s kid).vectors = s.vectors
  ∧ (∀ k : KnowledgeRow,
       k ∈ (deleteKnowledge s kid).knowledge
         ↔ (k ∈ s.knowledge ∧ k.id ≠ kid)) := by
  refine ⟨?_, ?_, rfl, rfl, ?_⟩
  · intro d
    simp [deleteKnowledge, List.mem_filter]
  · exact List.length_eq_length_filter_add
      (fun d : DocumentRow => d.knowledge_id == kid)
  · intro k
    simp [deleteKnowledge, List.mem_filter]

/-- C8: after the upload flow (upload button, then file chosen), whenever the
pending-vectorization marker is set, both the blob save and the catalog
insert/commit succeeded and the marker's document id names a row present in the
catalog — a failed insert rolls back and never leaves a marker. -/
theorem pending_marker_implies_committed_row
    (s : AppState) (k : KnowledgeRow) (fname ftype : String) (fsize : Nat)
    (saveErr dbErr : Option String) (newId tRow tSnap : Nat) (m : PendingDoc)
    (h : (uploadFileChosen (uploadButtonClick s k).1 fname ftype fsize saveErr
           dbErr newId tRow tSnap).1.pending = some m) :
    saveErr = none ∧ dbErr = none ∧ m.document_id = newId ∧
    ∃ row ∈ (uploadFileChosen (uploadButtonClick s k).1 fname ftype fsize
              saveErr dbErr newId tRow tSnap).1.documents,
      row.id = m.document_id := by
  cases saveErr with
  | some e =>
      exact absurd ((rfl :
        (uploadFileChosen (uploadButtonClick s k).1 fname ftype fsize (some e)
          dbErr newId tRow tSnap).1.pending = none) ▸ h)
        (by intro hc; exact Option.noConfusion hc)
  | none =>
      cases dbErr with
      | some e =>
          exact absurd ((rfl :
            (uploadFileChosen (uploadButtonClick s k).1 fname ftype fsize none
              (some e) newId tRow tSnap).1.pending = none) ▸ h)
            (by intro hc; exact Option.noConfusion hc)
      | none =>
          have h2 : some (⟨newId, k.id, k.name, k.description, fname, ftype,
              fsize, "storage/" ++ sanitizeName k.name ++ "/" ++ fname,
              toString tSnap⟩ : PendingDoc) = some m := h
          obtain rfl : (⟨newId, k.id, k.name, k.description, fname, ftype,
              fsize, "storage/" ++ sanitizeName k.name ++ "/" ++ fname,
              toString tSnap⟩ : PendingDoc) = m := Option.some.inj h2
          refine ⟨rfl, rfl, rfl, ?_⟩
          exact ⟨⟨newId, k.id, fname, ftype, fsize,
                  "storage/" ++ sanitizeName k.name ++ "/" ++ fname, tRow⟩,
                 List.mem_append_right s.documents (List.mem_singleton_self _),
                 rfl⟩

/-- Witness for C8 at the concrete `guide.txt` upload. -/
theorem pending_marker_implies_committed_row_witness :
    (uploadFileChosen (uploadButtonClick state0 know1).1 "guide.txt"
       "text/plain" 11 none none 1 0 1).1.pending = some pending1 ∧
    ∃ row ∈ (uploadFileChosen (uploadButtonClick state0 know1).1 "guide.txt"
              "text/plain" 11 none none 1 0 1).1.documents,
      row.id = pending1.document_id :=
  ⟨by decide,
   (pending_marker_implies_committed_row state0 know1 "guide.txt" "text/plain"
      11 none none 1 0 1 pending1 (by decide)).2.2.2⟩

/-- Witness for C2: an upload whose every extraction attempt raises leaves the
pending state untouched. -/
theorem indexing_empty_extraction_keeps_marker_witness :
    statePending.pending = some pending1 ∧
    (extract_text_from_file fsRaise pending1.path pending1.file_type).1 = "" ∧
    (addToVectorDbClick fsRaise statePending none).1 = statePending :=
  ⟨by decide, by decide,
   ((indexing_empty_extraction_keeps_marker fsRaise statePending pending1 none
      (by decide)).1 (by decide)).1⟩

end RagModel
